import Mathlib

/-!
Shallow embedding of `src/backend/server.py` (LinkedIn Ghostwriter Agent backend).

Modelling conventions:
* Wall-clock instants (`time.time()`, `datetime.now(timezone.utc)`) are modelled as
  integer seconds (`Int`); the server logic only compares and adds durations.
* External cryptographic primitives (`bcrypt.hashpw` with its per-call salt,
  `hashlib.sha256(...).hexdigest()`) are passed in as function parameters
  `hashPw`, `sha : String → String`; the code uses them only as black boxes.
* `json.loads` (the Python standard-library decoder) is passed in as a parameter
  `decode : String → Option (List PostData)`; `none` models both a decode
  exception and a decoded value that is not a list of objects.
* Randomly generated values (`uuid.uuid4()`, `secrets.token_urlsafe(32)`) are
  passed in as explicit string parameters.
* MongoDB collections are lists of records; `find_one` is `List.find?` on the
  query predicate, `update_one` updates the first matching record, `delete_many`
  filters, `insert_one` appends.
* The LLM collaborator call is a parameter `llmReply : Option String` (`none`
  models a raised exception / timeout); the prompt assembly only feeds that
  external call, so it is absorbed into the oracle.  A ghost flag `llm_invoked`
  records whether execution reached the collaborator call.
-/

/-! ## Constants (server.py lines 33-36, 123-124, 981-982) -/

def FREE_POST_LIMIT : Nat := 10

def ADMIN_EMAILS : List String := ["eweiser622@gmail.com"]

def RATE_LIMIT_WINDOW : Int := 300

def RATE_LIMIT_MAX_REQUESTS : Nat := 3

def DEMO_VOICE_LIMIT_PER_DAY : Nat := 2

def DEMO_VOICE_LIMIT_WINDOW : Int := 86400

def RESET_TOKEN_TTL : Int := 30 * 60

/-- Python `str.lower()` (ASCII range, which covers every string the server
compares case-insensitively). -/
def strToLower (s : String) : String := String.mk (s.toList.map Char.toLower)

/-- `is_admin_user` (server.py line 47): case-insensitive membership in the
fixed admin allow-list. -/
def is_admin_user (email : String) : Bool :=
  (ADMIN_EMAILS.map strToLower).contains (strToLower email)

/-! ## Sliding-window rate limiter (server.py lines 122-136) -/

/-- The in-memory `rate_limit_store : defaultdict(list)`, mapping identifiers to
recorded request timestamps (missing key = empty list). -/
def RLStore : Type := String → List Int

def RLStore.update (s : RLStore) (k : String) (v : List Int) : RLStore :=
  fun x => if x = k then v else s x

def RLStore.empty : RLStore := fun _ => []

/-- `check_rate_limit` (server.py lines 126-136): prune entries with
`now - t < RATE_LIMIT_WINDOW` kept, reject when the kept count has reached
`RATE_LIMIT_MAX_REQUESTS`, otherwise record `now` and allow. -/
def check_rate_limit (store : RLStore) (identifier : String) (now : Int) :
    Bool × RLStore :=
  let kept := (store identifier).filter (fun t => now - t < RATE_LIMIT_WINDOW)
  if RATE_LIMIT_MAX_REQUESTS ≤ kept.length then
    (false, store.update identifier kept)
  else
    (true, store.update identifier (kept ++ [now]))

/-- Runs a sequence of checks for one key against the limiter, returning the
list of allow/deny outcomes and the final store. -/
def rl_run (store : RLStore) (k : String) : List Int → List Bool × RLStore
  | [] => ([], store)
  | t :: ts =>
    let s := check_rate_limit store k t
    let rest := rl_run s.2 k ts
    (s.1 :: rest.1, rest.2)

/-! ## Persistent daily counter (server.py lines 984-1022) -/

/-- One document of the `demo_rate_limits` collection (for a fixed
`(ip, type)` key). -/
structure DemoRateRecord where
  count : Nat
  first_request : Int
  last_request : Int
deriving DecidableEq, Repr

/-- `check_demo_voice_limit` (server.py lines 984-1022) acting on the stored
record for the caller's `(ip, "voice_train")` key (`none` = no record yet).
Returns `(allowed, remaining, new record)`. -/
def check_demo_voice_limit (record : Option DemoRateRecord) (now : Int) :
    Bool × Int × Option DemoRateRecord :=
  let window_start := now - DEMO_VOICE_LIMIT_WINDOW
  match record with
  | none =>
    (true, (DEMO_VOICE_LIMIT_PER_DAY : Int) - 1,
     some { count := 1, first_request := now, last_request := now })
  | some r =>
    if r.first_request < window_start then
      (true, (DEMO_VOICE_LIMIT_PER_DAY : Int) - 1,
       some { count := 1, first_request := now, last_request := now })
    else if DEMO_VOICE_LIMIT_PER_DAY ≤ r.count then
      (false, 0, some r)
    else
      (true, (DEMO_VOICE_LIMIT_PER_DAY : Int) - (r.count : Int) - 1,
       some { count := r.count + 1, first_request := r.first_request, last_request := now })

/-- Runs a sequence of demo-limit checks for one key, returning the outcomes
and the final stored record. -/
def demo_run (record : Option DemoRateRecord) : List Int → List Bool × Option DemoRateRecord
  | [] => ([], record)
  | t :: ts =>
    let s := check_demo_voice_limit record t
    let rest := demo_run s.2.2 ts
    (s.1 :: rest.1, rest.2)

/-! ## Document store: users and password resets -/

/-- A document of the `users` collection (server.py lines 233-239).
`posts_generated` models `user_doc.get("posts_generated", 0)`; `register`
creates users without the field, i.e. with value 0. -/
structure UserRec where
  id : String
  email : String
  password : String
  name : String
  created_at : Int
  posts_generated : Nat
deriving DecidableEq, Repr

/-- A document of the `password_resets` collection (server.py lines 290-297). -/
structure ResetRec where
  id : String
  user_id : String
  token_hash : String
  expires_at : Int
  used : Bool
  created_at : Int
deriving DecidableEq, Repr

/-- The document store slice used by the auth/reset endpoints. -/
structure DB where
  users : List UserRec
  password_resets : List ResetRec
deriving DecidableEq, Repr

def DB.empty : DB := { users := [], password_resets := [] }

instance {ε α : Type} [DecidableEq ε] [DecidableEq α] : DecidableEq (Except ε α)
  | .error a, .error b =>
    if h : a = b then isTrue (by rw [h]) else isFalse (fun hc => h (by cases hc; rfl))
  | .error _, .ok _ => isFalse (fun hc => by cases hc)
  | .ok _, .error _ => isFalse (fun hc => by cases hc)
  | .ok a, .ok b =>
    if h : a = b then isTrue (by rw [h]) else isFalse (fun hc => h (by cases hc; rfl))

/-- A store holding one unused but expired reset record (for expiry behaviour). -/
def expiredTokenDB : DB :=
  { users := [],
    password_resets := [{ id := "r1", user_id := "u1", token_hash := "tok",
                          expires_at := 10, used := false, created_at := 0 }] }

/-- A store holding one registered user whose email has an upper-case local part. -/
def casedEmailDB : DB :=
  { users := [{ id := "u1", email := "Alice@x.com", password := "h1", name := "Alice",
                created_at := 0, posts_generated := 0 }],
    password_resets := [] }

/-- A store holding one registered user. -/
def oneUserDB : DB :=
  { users := [{ id := "u1", email := "a@x.com", password := "h1", name := "A",
                created_at := 0, posts_generated := 0 }],
    password_resets := [] }

/-- `update_one` on `password_resets` with filter `id = rid`, setting
`used := true` on the first matching document. -/
def markUsed : List ResetRec → String → List ResetRec
  | [], _ => []
  | r :: rs, rid =>
    if r.id = rid then { r with used := true } :: rs else r :: markUsed rs rid

/-- `update_one` on `users` with filter `id = uid`, setting the password hash
on the first matching document. -/
def setPasswordFirst : List UserRec → String → String → List UserRec
  | [], _, _ => []
  | u :: us, uid, pw =>
    if u.id = uid then { u with password := pw } :: us else u :: setPasswordFirst us uid pw

/-- The lookup `db.password_resets.find_one({"token_hash": h, "used": False})`
(server.py lines 336-339 and 381-384). -/
def find_reset (db : DB) (h : String) : Option ResetRec :=
  db.password_resets.find? (fun r => r.token_hash == h && r.used == false)

/-! ## Auth endpoints -/

inductive RegErr where
  /-- HTTP 400 "Email already registered" (a `ValidationFailure`). -/
  | emailAlreadyRegistered
deriving DecidableEq, Repr

/-- `register` (server.py lines 225-246).  Duplicate check is
`db.users.find_one({"email": email})`, an exact string match.  There is no
validation of the password. -/
def register (hashPw : String → String) (db : DB)
    (email password nm newId : String) (now : Int) :
    Except RegErr UserRec × DB :=
  match db.users.find? (fun u => u.email == email) with
  | some _ => (.error .emailAlreadyRegistered, db)
  | none =>
    let u : UserRec :=
      { id := newId, email := email, password := hashPw password, name := nm,
        created_at := now, posts_generated := 0 }
    (.ok u, { db with users := db.users ++ [u] })

/-- The uniform message returned by `forgot_password` (server.py lines 278, 316). -/
def genericResetMessage : String :=
  "If an account exists with this email, you will receive a password reset link."

structure ForgotResponse where
  message : String
  devResetUrl : Option String
deriving DecidableEq, Repr

/-- `forgot_password` (server.py lines 264-323).  `isPreviewMode` is the
computed `is_preview_mode` flag (FRONTEND_URL contains "preview"/"localhost"
or DEV_MODE=true); `secret`/`newId` are this call's random token and uuid. -/
def forgot_password (sha : String → String) (db : DB) (store : RLStore)
    (email ip : String) (now : Int) (isPreviewMode : Bool) (frontendUrl : String)
    (secret newId : String) : ForgotResponse × DB × RLStore :=
  let key := "forgot:" ++ ip ++ ":" ++ email
  let rl := check_rate_limit store key now
  if rl.1 = false then
    ({ message := genericResetMessage, devResetUrl := none }, db, rl.2)
  else
    match db.users.find? (fun u => u.email == email) with
    | none => ({ message := genericResetMessage, devResetUrl := none }, db, rl.2)
    | some user =>
      let tokenHash := sha secret
      let resetDoc : ResetRec :=
        { id := newId, user_id := user.id, token_hash := tokenHash,
          expires_at := now + RESET_TOKEN_TTL, used := false, created_at := now }
      let db2 : DB :=
        { db with password_resets :=
            (db.password_resets.filter (fun r => r.user_id ≠ user.id)) ++ [resetDoc] }
      let resetUrl := frontendUrl ++ "/reset-password?token=" ++ secret
      if isPreviewMode then
        ({ message := genericResetMessage, devResetUrl := some resetUrl }, db2, rl.2)
      else
        ({ message := genericResetMessage, devResetUrl := none }, db2, rl.2)

inductive ResetErr where
  /-- HTTP 400 "Password must be at least 6 characters". -/
  | validationFailure
  /-- HTTP 400 "Invalid or expired reset link". -/
  | invalidOrExpired
  /-- HTTP 400 "Reset link has expired. Please request a new one.". -/
  | expired
  /-- HTTP 400 "User not found". -/
  | userNotFound
deriving DecidableEq, Repr

/-- `reset_password` (server.py lines 325-374). -/
def reset_password (sha hashPw : String → String) (db : DB)
    (token newPassword : String) (now : Int) : Except ResetErr Unit × DB :=
  if newPassword.length < 6 then (.error .validationFailure, db)
  else
    let tokenHash := sha token
    match find_reset db tokenHash with
    | none => (.error .invalidOrExpired, db)
    | some rdoc =>
      if rdoc.expires_at < now then
        (.error .expired, { db with password_resets := markUsed db.password_resets rdoc.id })
      else
        match db.users.find? (fun u => u.id == rdoc.user_id) with
        | none => (.error .userNotFound, db)
        | some user =>
          let db2 : DB := { db with users := setPasswordFirst db.users user.id (hashPw newPassword) }
          let db3 : DB := { db2 with password_resets := markUsed db2.password_resets rdoc.id }
          (.ok (), db3)

structure VerifyResponse where
  valid : Bool
  message : Option String
deriving DecidableEq, Repr

/-- `verify_reset_token` (server.py lines 376-393).  The handler performs no
writes; the returned `DB` is the store after the call. -/
def verify_reset_token (sha : String → String) (db : DB) (token : String) (now : Int) :
    VerifyResponse × DB :=
  let tokenHash := sha token
  match find_reset db tokenHash with
  | none => ({ valid := false, message := some "Invalid or expired reset link" }, db)
  | some rdoc =>
    if rdoc.expires_at < now then
      ({ valid := false, message := some "Reset link has expired" }, db)
    else
      ({ valid := true, message := none }, db)

/-! ## Reachable states of the reset subsystem -/

/-- One inbound request touching the users / password-resets collections.
Each constructor carries the call's nondeterministic inputs (time, random
identifiers, this call's bcrypt closure). -/
inductive Op where
  | opRegister (hashPw : String → String) (email password nm newId : String) (now : Int)
  | opForgot (sha : String → String) (email ip : String) (now : Int)
      (preview : Bool) (url secret newId : String)
  | opReset (sha hashPw : String → String) (token newPassword : String) (now : Int)
  | opVerify (sha : String → String) (token : String) (now : Int)

/-- Server state: the document store plus the in-memory rate-limit table. -/
structure Sys where
  db : DB
  store : RLStore

def Sys.init : Sys := { db := DB.empty, store := RLStore.empty }

/-- Applying one request to the server state (responses discarded). -/
def stepOp (s : Sys) : Op → Sys
  | .opRegister hashPw email password nm newId now =>
    { s with db := (register hashPw s.db email password nm newId now).2 }
  | .opForgot sha email ip now preview url secret newId =>
    let r := forgot_password sha s.db s.store email ip now preview url secret newId
    { db := r.2.1, store := r.2.2 }
  | .opReset sha hashPw token newPassword now =>
    { s with db := (reset_password sha hashPw s.db token newPassword now).2 }
  | .opVerify sha token now =>
    { s with db := (verify_reset_token sha s.db token now).2 }

def runOps (ops : List Op) : Sys := ops.foldl stepOp Sys.init

/-- Number of unused reset records owned by `uid`. -/
def unusedCount (l : List ResetRec) (uid : String) : Nat :=
  (l.filter (fun r => r.user_id == uid && r.used == false)).length

/-- At most one unused reset record per user. -/
def resetInvariant (db : DB) : Prop :=
  ∀ uid, unusedCount db.password_resets uid ≤ 1

/-- Number of active (unused and unexpired at time `now`) reset records owned
by `uid`. -/
def activeCount (l : List ResetRec) (uid : String) (now : Int) : Nat :=
  (l.filter (fun r => r.user_id == uid && r.used == false && decide (now ≤ r.expires_at))).length

/-! ## Post generation (server.py lines 543-708) -/

/-- One decoded element of the model's JSON array; `get("content", "")` /
`get("tag", "Practical")` defaults are applied at draft creation. -/
structure PostData where
  content : Option String
  tag : Option String
deriving DecidableEq, Repr

/-- Python `str.find(c)`: index of the first occurrence, `-1` if absent. -/
def pyFind (s : String) (c : Char) : Int :=
  match s.toList.findIdx? (fun x => x == c) with
  | some i => (i : Int)
  | none => -1

/-- Python `str.rfind(c)`: index of the last occurrence, `-1` if absent. -/
def pyRFind (s : String) (c : Char) : Int :=
  match s.toList.reverse.findIdx? (fun x => x == c) with
  | some i => (s.toList.length : Int) - 1 - (i : Int)
  | none => -1

/-- Python slice `s[a:b]` for the index ranges the parser produces. -/
def pySlice (s : String) (a b : Int) : String :=
  String.mk ((s.toList.drop a.toNat).take (b - a).toNat)

/-- Python `str.title()`: an alphabetic character is uppercased when not
preceded by an alphabetic character, lowercased otherwise. -/
def pyTitleAux : List Char → Bool → List Char
  | [], _ => []
  | c :: cs, prevAlpha =>
    (if c.isAlpha then (if prevAlpha then c.toLower else c.toUpper) else c)
      :: pyTitleAux cs c.isAlpha

def pyTitle (s : String) : String := String.mk (pyTitleAux s.toList false)

/-- The bracket-extraction step of the parsing policy (server.py lines 657-664):
locate the first `[` and the character after the last `]`; when the range is
non-empty, decode the slice; otherwise fail (`ValueError`). -/
def extract_posts (decode : String → Option (List PostData)) (s : String) :
    Option (List PostData) :=
  let jsonStart := pyFind s '['
  let jsonEnd := pyRFind s ']' + 1
  if 0 ≤ jsonStart ∧ jsonStart < jsonEnd then decode (pySlice s jsonStart jsonEnd)
  else none

/-- The fixed fallback drafts (server.py lines 669-675), built from the topic
string alone, one per angle tag. -/
def fallback_posts (topic : String) : List PostData :=
  [ { content := some ("Here\x27s what I\x27ve learned about " ++ topic ++
        ":\n\nThe key is consistency over perfection.\n\nEvery expert was once a beginner."),
      tag := some "Practical" },
    { content := some ("A story about " ++ topic ++
        ":\n\nLast year, I failed spectacularly. But that failure taught me everything I know today."),
      tag := some "Story" },
    { content := some ("Unpopular opinion about " ++ topic ++
        ":\n\nMost advice you\x27ll hear is wrong.\n\nHere\x27s the truth nobody talks about."),
      tag := some "Contrarian" },
    { content := some ("My 3-step framework for " ++ topic ++
        ":\n\n1. Start small\n2. Stay consistent\n3. Iterate fast\n\nSimple but effective."),
      tag := some "Framework" },
    { content := some (pyTitle topic ++
        " isn\x27t complicated.\n\nWe make it complicated.\n\nStop overthinking. Start doing."),
      tag := some "Punchy" } ]

/-- `try: ... except: fallback` around the collaborator call and JSON
extraction (server.py lines 653-675). -/
def posts_or_fallback (decode : String → Option (List PostData))
    (llmReply : Option String) (topic : String) : List PostData :=
  match llmReply with
  | none => fallback_posts topic
  | some s =>
    match extract_posts decode s with
    | some ps => ps
    | none => fallback_posts topic

/-- A document of the `draft_posts` collection (server.py lines 686-696). -/
structure DraftPost where
  id : String
  user_id : String
  topic : String
  audience : Option String
  content : String
  tags : List String
  is_favorite : Bool
  created_at : Int
  updated_at : Int
deriving DecidableEq, Repr

inductive GenErr where
  /-- HTTP 403: free post limit reached (an `AuthorizationDenial`). -/
  | capExceeded
  /-- HTTP 500: LLM API key not configured. -/
  | noApiKey
  /-- HTTP 400: no voice profile. -/
  | noProfile
deriving DecidableEq, Repr

structure GenResult where
  result : Except GenErr (List DraftPost)
  inserted : List DraftPost
  counter_increment : Nat
  llm_invoked : Bool
deriving Repr

/-- Saving one decoded post (server.py lines 681-699). -/
def mk_draft (uid topic : String) (audience : Option String) (now : Int)
    (ids : Nat → String) (i : Nat) (pd : PostData) : DraftPost :=
  { id := ids i, user_id := uid, topic := topic, audience := audience,
    content := pd.content.getD "", tags := [pd.tag.getD "Practical"],
    is_favorite := false, created_at := now, updated_at := now }

/-- `user_doc.get("posts_generated", 0) if user_doc else 0` (server.py
lines 553-554): the caller's lifetime count, re-read from the store. -/
def lookup_posts_generated (users : List UserRec) (userId : String) : Nat :=
  match users.find? (fun u => u.id == userId) with
  | some u => u.posts_generated
  | none => 0

/-- `generate_posts` (server.py lines 543-708).  `users` is the `users`
collection (the cap check re-reads the caller's document from it),
`profileUserIds` the owners of the `voice_profiles` collection, `hasApiKey`
whether `EMERGENT_LLM_KEY` is set, `ids` the uuid supply for new drafts. -/
def generate_posts (decode : String → Option (List PostData))
    (users : List UserRec) (profileUserIds : List String) (hasApiKey : Bool)
    (userId userEmail : String) (llmReply : Option String)
    (topic : String) (audience : Option String) (now : Int) (ids : Nat → String) :
    GenResult :=
  let isAdmin := is_admin_user userEmail
  let postsGenerated := lookup_posts_generated users userId
  if isAdmin = false ∧ FREE_POST_LIMIT ≤ postsGenerated then
    { result := .error .capExceeded, inserted := [], counter_increment := 0, llm_invoked := false }
  else if hasApiKey = false then
    { result := .error .noApiKey, inserted := [], counter_increment := 0, llm_invoked := false }
  else if (profileUserIds.contains userId) = false then
    { result := .error .noProfile, inserted := [], counter_increment := 0, llm_invoked := false }
  else
    let postsData := posts_or_fallback decode llmReply topic
    let saved := (postsData.take 5).mapIdx (fun i pd => mk_draft userId topic audience now ids i pd)
    { result := .ok saved, inserted := saved,
      counter_increment := if isAdmin then 0 else saved.length, llm_invoked := true }

/-! ## Helper lemmas -/

theorem RLStore.update_self (s : RLStore) (k : String) (v : List Int) :
    s.update k v k = v := by
  simp [RLStore.update]

theorem check_rate_limit_allow (store : RLStore) (k : String) (now : Int)
    (h : ((store k).filter (fun t => now - t < RATE_LIMIT_WINDOW)).length
          < RATE_LIMIT_MAX_REQUESTS) :
    check_rate_limit store k now =
      (true, store.update k ((store k).filter (fun t => now - t < RATE_LIMIT_WINDOW) ++ [now])) := by
  simp only [check_rate_limit]
  rw [if_neg (Nat.not_le.mpr h)]

theorem check_rate_limit_deny (store : RLStore) (k : String) (now : Int)
    (h : RATE_LIMIT_MAX_REQUESTS ≤
          ((store k).filter (fun t => now - t < RATE_LIMIT_WINDOW)).length) :
    check_rate_limit store k now =
      (false, store.update k ((store k).filter (fun t => now - t < RATE_LIMIT_WINDOW))) := by
  simp only [check_rate_limit]
  rw [if_pos h]

/-! ## C2: sliding-window rate limiter -/

/-- C2: each check of `check_rate_limit` first discards the key's timestamps
whose age has reached the 300-second window, allows only if fewer than 3
remain, and records the new timestamp exactly when it allows; consequently,
starting from an empty store, 3 requests within a 300-second window are
allowed, the 4th within the window is rejected, and a request is allowed again
once the window has elapsed. -/
theorem sliding_window_limit_behavior :
    (∀ (store : RLStore) (k : String) (now : Int),
      (check_rate_limit store k now).1 = true ↔
        ((store k).filter (fun t => now - t < RATE_LIMIT_WINDOW)).length
          < RATE_LIMIT_MAX_REQUESTS) ∧
    (∀ (store : RLStore) (k : String) (now : Int),
      (check_rate_limit store k now).2 k =
        (store k).filter (fun t => now - t < RATE_LIMIT_WINDOW) ++
          (if ((store k).filter (fun t => now - t < RATE_LIMIT_WINDOW)).length
                < RATE_LIMIT_MAX_REQUESTS
           then [now] else [])) ∧
    (∀ (t1 t2 t3 t4 t5 : Int) (k : String), t1 ≤ t2 → t2 ≤ t3 → t3 ≤ t4 →
      t4 - t1 < RATE_LIMIT_WINDOW → RATE_LIMIT_WINDOW ≤ t5 - t3 →
      (rl_run RLStore.empty k [t1, t2, t3, t4, t5]).1 = [true, true, true, false, true]) := by
  refine ⟨?_, ?_, ?_⟩
  · intro store k now
    by_cases h : ((store k).filter (fun t => now - t < RATE_LIMIT_WINDOW)).length
          < RATE_LIMIT_MAX_REQUESTS
    · rw [check_rate_limit_allow store k now h]
      simp [h]
    · rw [check_rate_limit_deny store k now (Nat.not_lt.mp h)]
      simp [h]
  · intro store k now
    by_cases h : ((store k).filter (fun t => now - t < RATE_LIMIT_WINDOW)).length
          < RATE_LIMIT_MAX_REQUESTS
    · rw [check_rate_limit_allow store k now h, if_pos h]
      simp [RLStore.update]
    · rw [check_rate_limit_deny store k now (Nat.not_lt.mp h), if_neg h]
      simp [RLStore.update]
  · intro t1 t2 t3 t4 t5 k h12 h23 h34 hwin hgap
    simp only [RATE_LIMIT_WINDOW] at hwin hgap
    have h21 : t2 - t1 < RATE_LIMIT_WINDOW := by simp only [RATE_LIMIT_WINDOW]; omega
    have h31 : t3 - t1 < RATE_LIMIT_WINDOW := by simp only [RATE_LIMIT_WINDOW]; omega
    have h32 : t3 - t2 < RATE_LIMIT_WINDOW := by simp only [RATE_LIMIT_WINDOW]; omega
    have h41 : t4 - t1 < RATE_LIMIT_WINDOW := by simp only [RATE_LIMIT_WINDOW]; omega
    have h42 : t4 - t2 < RATE_LIMIT_WINDOW := by simp only [RATE_LIMIT_WINDOW]; omega
    have h43 : t4 - t3 < RATE_LIMIT_WINDOW := by simp only [RATE_LIMIT_WINDOW]; omega
    have n51 : ¬ (t5 - t1 < RATE_LIMIT_WINDOW) := by simp only [RATE_LIMIT_WINDOW]; omega
    have n52 : ¬ (t5 - t2 < RATE_LIMIT_WINDOW) := by simp only [RATE_LIMIT_WINDOW]; omega
    have n53 : ¬ (t5 - t3 < RATE_LIMIT_WINDOW) := by simp only [RATE_LIMIT_WINDOW]; omega
    have e0 : RLStore.empty k = [] := rfl
    have c1 := check_rate_limit_allow RLStore.empty k t1 (by rw [e0]; simp [RATE_LIMIT_MAX_REQUESTS])
    rw [e0] at c1
    simp only [List.filter_nil, List.nil_append] at c1
    set s1 : RLStore := RLStore.empty.update k [t1] with hs1
    have e1 : s1 k = [t1] := RLStore.update_self ..
    have c2 := check_rate_limit_allow s1 k t2 (by
      rw [e1]; simp [List.filter, h21, RATE_LIMIT_MAX_REQUESTS])
    rw [e1, show List.filter (fun t => decide (t2 - t < RATE_LIMIT_WINDOW)) [t1] = [t1] by
      simp [List.filter, h21]] at c2
    simp only [List.cons_append, List.nil_append] at c2
    set s2 : RLStore := s1.update k [t1, t2] with hs2
    have e2 : s2 k = [t1, t2] := RLStore.update_self ..
    have c3 := check_rate_limit_allow s2 k t3 (by
      rw [e2]; simp [List.filter, h31, h32, RATE_LIMIT_MAX_REQUESTS])
    rw [e2, show List.filter (fun t => decide (t3 - t < RATE_LIMIT_WINDOW)) [t1, t2] = [t1, t2] by
      simp [List.filter, h31, h32]] at c3
    simp only [List.cons_append, List.nil_append] at c3
    set s3 : RLStore := s2.update k [t1, t2, t3] with hs3
    have e3 : s3 k = [t1, t2, t3] := RLStore.update_self ..
    have c4 := check_rate_limit_deny s3 k t4 (by
      rw [e3]; simp [List.filter, h41, h42, h43, RATE_LIMIT_MAX_REQUESTS])
    rw [e3, show List.filter (fun t => decide (t4 - t < RATE_LIMIT_WINDOW)) [t1, t2, t3] = [t1, t2, t3] by
      simp [List.filter, h41, h42, h43]] at c4
    set s4 : RLStore := s3.update k [t1, t2, t3] with hs4
    have e4 : s4 k = [t1, t2, t3] := RLStore.update_self ..
    have c5 := check_rate_limit_allow s4 k t5 (by
      rw [e4]; simp [List.filter, n51, n52, n53, RATE_LIMIT_MAX_REQUESTS])
    simp only [rl_run, c1, c2, c3, c4, c5]

/-- Witness for `sliding_window_limit_behavior` at concrete inputs. -/
theorem sliding_window_limit_behavior_witness :
    ((check_rate_limit RLStore.empty "k" 0).1 = true ↔
      ((RLStore.empty "k").filter (fun t => (0 : Int) - t < RATE_LIMIT_WINDOW)).length
        < RATE_LIMIT_MAX_REQUESTS) ∧
    (rl_run RLStore.empty "k" [0, 10, 20, 30, 400]).1 = [true, true, true, false, true] :=
  ⟨sliding_window_limit_behavior.1 RLStore.empty "k" 0,
   sliding_window_limit_behavior.2.2 0 10 20 30 400 "k" (by decide) (by decide) (by decide)
     (by decide) (by decide)⟩

/-! ## C5: persistent daily counter -/

theorem demo_limit_first (now : Int) :
    check_demo_voice_limit none now =
      (true, (DEMO_VOICE_LIMIT_PER_DAY : Int) - 1,
        some { count := 1, first_request := now, last_request := now }) := rfl

theorem demo_limit_reset (r : DemoRateRecord) (now : Int)
    (h : r.first_request < now - DEMO_VOICE_LIMIT_WINDOW) :
    check_demo_voice_limit (some r) now =
      (true, (DEMO_VOICE_LIMIT_PER_DAY : Int) - 1,
        some { count := 1, first_request := now, last_request := now }) := by
  simp only [check_demo_voice_limit]
  rw [if_pos h]

theorem demo_limit_reject (r : DemoRateRecord) (now : Int)
    (h : ¬ r.first_request < now - DEMO_VOICE_LIMIT_WINDOW)
    (hc : DEMO_VOICE_LIMIT_PER_DAY ≤ r.count) :
    check_demo_voice_limit (some r) now = (false, 0, some r) := by
  simp only [check_demo_voice_limit]
  rw [if_neg h, if_pos hc]

theorem demo_limit_incr (r : DemoRateRecord) (now : Int)
    (h : ¬ r.first_request < now - DEMO_VOICE_LIMIT_WINDOW)
    (hc : r.count < DEMO_VOICE_LIMIT_PER_DAY) :
    check_demo_voice_limit (some r) now =
      (true, (DEMO_VOICE_LIMIT_PER_DAY : Int) - (r.count : Int) - 1,
        some { count := r.count + 1, first_request := r.first_request, last_request := now }) := by
  simp only [check_demo_voice_limit]
  rw [if_neg h, if_neg (Nat.not_le.mpr hc)]

/-- C5: the daily-counter limiter creates a record with count 1 on first use;
afterwards it resets count to 1 and the window start to now when the window
start is older than 24 hours, rejects once the count has reached 2, and
otherwise increments and allows; hence 2 operations per key are allowed per
24-hour window, the 3rd is rejected, and the allowance resets after the
window. -/
theorem daily_counter_limit_behavior :
    (∀ now : Int, check_demo_voice_limit none now =
      (true, (DEMO_VOICE_LIMIT_PER_DAY : Int) - 1,
        some { count := 1, first_request := now, last_request := now })) ∧
    (∀ (r : DemoRateRecord) (now : Int), r.first_request < now - DEMO_VOICE_LIMIT_WINDOW →
      check_demo_voice_limit (some r) now =
        (true, (DEMO_VOICE_LIMIT_PER_DAY : Int) - 1,
          some { count := 1, first_request := now, last_request := now })) ∧
    (∀ (r : DemoRateRecord) (now : Int), ¬ r.first_request < now - DEMO_VOICE_LIMIT_WINDOW →
      DEMO_VOICE_LIMIT_PER_DAY ≤ r.count →
      check_demo_voice_limit (some r) now = (false, 0, some r)) ∧
    (∀ (r : DemoRateRecord) (now : Int), ¬ r.first_request < now - DEMO_VOICE_LIMIT_WINDOW →
      r.count < DEMO_VOICE_LIMIT_PER_DAY →
      check_demo_voice_limit (some r) now =
        (true, (DEMO_VOICE_LIMIT_PER_DAY : Int) - (r.count : Int) - 1,
          some { count := r.count + 1, first_request := r.first_request, last_request := now })) ∧
    (∀ (t1 t2 t3 t4 : Int), t1 ≤ t2 → t2 ≤ t3 → t3 ≤ t4 →
      t3 - t1 ≤ DEMO_VOICE_LIMIT_WINDOW → DEMO_VOICE_LIMIT_WINDOW < t4 - t1 →
      (demo_run none [t1, t2, t3, t4]).1 = [true, true, false, true]) := by
  refine ⟨demo_limit_first, demo_limit_reset, demo_limit_reject, demo_limit_incr, ?_⟩
  intro t1 t2 t3 t4 h12 h23 h34 hin hout
  simp only [DEMO_VOICE_LIMIT_WINDOW] at hin hout
  have c1 := demo_limit_first t1
  have c2 := demo_limit_incr { count := 1, first_request := t1, last_request := t1 } t2
    (by simp only [DEMO_VOICE_LIMIT_WINDOW]; omega) (by simp [DEMO_VOICE_LIMIT_PER_DAY])
  norm_num at c2
  have c3 := demo_limit_reject { count := 2, first_request := t1, last_request := t2 } t3
    (by simp only [DEMO_VOICE_LIMIT_WINDOW]; omega) (by simp [DEMO_VOICE_LIMIT_PER_DAY])
  have c4 := demo_limit_reset { count := 2, first_request := t1, last_request := t2 } t4
    (by simp only [DEMO_VOICE_LIMIT_WINDOW]; omega)
  simp only [demo_run, c1, c2, c3, c4]

/-- Witness for `daily_counter_limit_behavior` at concrete inputs. -/
theorem daily_counter_limit_behavior_witness :
    check_demo_voice_limit
        (some { count := 2, first_request := 0, last_request := 50 }) 100 =
      (false, 0, some { count := 2, first_request := 0, last_request := 50 }) ∧
    (demo_run none [0, 50, 100, 90000]).1 = [true, true, false, true] :=
  ⟨daily_counter_limit_behavior.2.2.1 { count := 2, first_request := 0, last_request := 50 } 100
      (by decide) (by decide),
   daily_counter_limit_behavior.2.2.2.2 0 50 100 90000 (by decide) (by decide) (by decide)
      (by decide) (by decide)⟩

/-! ## C7 / C8: post generation -/

theorem posts_or_fallback_fail (decode : String → Option (List PostData))
    (llmReply : Option String) (topic : String)
    (hfail : llmReply = none ∨ ∃ s, llmReply = some s ∧ extract_posts decode s = none) :
    posts_or_fallback decode llmReply topic = fallback_posts topic := by
  rcases hfail with h | ⟨s, hs, hex⟩
  · rw [h]; rfl
  · rw [hs]; simp only [posts_or_fallback, hex]

theorem generate_posts_gen_shape (decode : String → Option (List PostData))
    (users : List UserRec) (profileUserIds : List String) (userId userEmail : String)
    (llmReply : Option String) (topic : String) (audience : Option String)
    (now : Int) (ids : Nat → String)
    (hcap : is_admin_user userEmail = true ∨ lookup_posts_generated users userId < FREE_POST_LIMIT)
    (hprof : profileUserIds.contains userId = true) :
    generate_posts decode users profileUserIds true userId userEmail llmReply topic audience now ids
      = { result := .ok (((posts_or_fallback decode llmReply topic).take 5).mapIdx
            (fun i pd => mk_draft userId topic audience now ids i pd)),
          inserted := ((posts_or_fallback decode llmReply topic).take 5).mapIdx
            (fun i pd => mk_draft userId topic audience now ids i pd),
          counter_increment := if is_admin_user userEmail = true then 0 else
            (((posts_or_fallback decode llmReply topic).take 5).mapIdx
              (fun i pd => mk_draft userId topic audience now ids i pd)).length,
          llm_invoked := true } := by
  simp only [generate_posts]
  rw [if_neg (by
    rcases hcap with h | h
    · simp [h]
    · exact fun hconj => absurd hconj.2 (Nat.not_le.mpr h))]
  rw [if_neg (by simp), if_neg (by rw [hprof]; exact fun h => Bool.noConfusion h)]

/-- C7: a generate request by a non-admin caller whose lifetime count has
reached the 10-post cap fails with the 403 cap error before the collaborator
is invoked and before any draft is created or counter incremented, while an
admin caller is never rejected by the cap. -/
theorem generation_cap_enforcement :
    (∀ (decode : String → Option (List PostData)) (users : List UserRec)
        (profileUserIds : List String) (hasApiKey : Bool) (userId userEmail : String)
        (llmReply : Option String) (topic : String) (audience : Option String)
        (now : Int) (ids : Nat → String),
      is_admin_user userEmail = false →
      FREE_POST_LIMIT ≤ lookup_posts_generated users userId →
      generate_posts decode users profileUserIds hasApiKey userId userEmail llmReply
          topic audience now ids =
        { result := .error .capExceeded, inserted := [], counter_increment := 0,
          llm_invoked := false }) ∧
    (∀ (decode : String → Option (List PostData)) (users : List UserRec)
        (profileUserIds : List String) (hasApiKey : Bool) (userId userEmail : String)
        (llmReply : Option String) (topic : String) (audience : Option String)
        (now : Int) (ids : Nat → String),
      is_admin_user userEmail = true →
      (generate_posts decode users profileUserIds hasApiKey userId userEmail llmReply
          topic audience now ids).result ≠ .error .capExceeded) := by
  constructor
  · intro decode users profileUserIds hasApiKey userId userEmail llmReply topic audience now ids
      hna hcap
    simp only [generate_posts]
    rw [if_pos ⟨hna, hcap⟩]
  · intro decode users profileUserIds hasApiKey userId userEmail llmReply topic audience now ids
      hadm
    simp only [generate_posts]
    rw [if_neg (by simp [hadm])]
    split
    · simp
    · split <;> simp

/-- Witness for `generation_cap_enforcement` at concrete inputs. -/
theorem generation_cap_enforcement_witness :
    generate_posts (fun _ => none)
        [{ id := "u1", email := "a@x.com", password := "h", name := "A",
           created_at := 0, posts_generated := 10 }] [] false "u1" "a@x.com" none
        "t" none 0 (fun _ => "d") =
      { result := .error .capExceeded, inserted := [], counter_increment := 0,
        llm_invoked := false } ∧
    (generate_posts (fun _ => none)
        [{ id := "u2", email := "eweiser622@gmail.com", password := "h", name := "E",
           created_at := 0, posts_generated := 1000 }] [] false "u2" "eweiser622@gmail.com" none
        "t" none 0 (fun _ => "d")).result ≠ .error .capExceeded :=
  ⟨generation_cap_enforcement.1 (fun _ => none) _ [] false "u1" "a@x.com" none "t" none 0
      (fun _ => "d") (by decide) (by decide),
   generation_cap_enforcement.2 (fun _ => none) _ [] false "u2" "eweiser622@gmail.com" none
      "t" none 0 (fun _ => "d") (by decide)⟩

/-- C8: when generation is reached (cap passed, key present, profile present)
and the collaborator errors or its reply has no decodable list-like substring,
the result is the 5 deterministic placeholder drafts built from the topic
alone, persisted and returned without surfacing an error, covering the 5 fixed
angle tags. -/
theorem generation_fallback_on_unparsable (decode : String → Option (List PostData))
    (users : List UserRec) (profileUserIds : List String) (userId userEmail : String)
    (llmReply : Option String) (topic : String) (audience : Option String)
    (now : Int) (ids : Nat → String)
    (hcap : is_admin_user userEmail = true ∨ lookup_posts_generated users userId < FREE_POST_LIMIT)
    (hprof : profileUserIds.contains userId = true)
    (hfail : llmReply = none ∨ ∃ s, llmReply = some s ∧ extract_posts decode s = none) :
    (generate_posts decode users profileUserIds true userId userEmail llmReply
        topic audience now ids).result
      = .ok (generate_posts decode users profileUserIds true userId userEmail llmReply
        topic audience now ids).inserted ∧
    (generate_posts decode users profileUserIds true userId userEmail llmReply
        topic audience now ids).llm_invoked = true ∧
    (generate_posts decode users profileUserIds true userId userEmail llmReply
        topic audience now ids).inserted
      = (fallback_posts topic).mapIdx (fun i pd => mk_draft userId topic audience now ids i pd) ∧
    (generate_posts decode users profileUserIds true userId userEmail llmReply
        topic audience now ids).inserted.length = 5 ∧
    (generate_posts decode users profileUserIds true userId userEmail llmReply
        topic audience now ids).inserted.map DraftPost.tags
      = [["Practical"], ["Story"], ["Contrarian"], ["Framework"], ["Punchy"]] := by
  rw [generate_posts_gen_shape decode users profileUserIds userId userEmail llmReply
      topic audience now ids hcap hprof,
    posts_or_fallback_fail decode llmReply topic hfail]
  exact ⟨rfl, rfl, rfl, rfl, rfl⟩

/-- Witness for `generation_fallback_on_unparsable` at concrete inputs. -/
theorem generation_fallback_on_unparsable_witness :
    (generate_posts (fun _ => none) [] ["u1"] true "u1" "a@x.com" (some "no list here")
        "pricing" none 0 (fun n => toString n)).inserted.map DraftPost.tags
      = [["Practical"], ["Story"], ["Contrarian"], ["Framework"], ["Punchy"]] :=
  (generation_fallback_on_unparsable (fun _ => none) [] ["u1"] "u1" "a@x.com"
    (some "no list here") "pricing" none 0 (fun n => toString n)
    (Or.inr (by decide)) (by decide)
    (Or.inr ⟨"no list here", rfl, by simp [extract_posts, pyFind, pyRFind]⟩)).2.2.2.2

/-! ## C9 / C10: registration -/

/-- C9 counterexample: with `Alice@x.com` registered, registering
`alice@x.com` (same address, different letter case) is **not** rejected — the
duplicate lookup is an exact string match, so the second registration
succeeds. -/
theorem register_case_insensitive_cex :
    (register (fun s => s) casedEmailDB "alice@x.com" "pw123456" "Alice" "u2" 5).1
      ≠ .error .emailAlreadyRegistered ∧
    (register (fun s => s) casedEmailDB "alice@x.com" "pw123456" "Alice" "u2" 5).1
      = .ok { id := "u2", email := "alice@x.com", password := "pw123456", name := "Alice",
              created_at := 5, posts_generated := 0 } :=
  ⟨by decide, rfl⟩

/-- C9 (amended): a second registration presenting the identical email string
fails with the 400 duplicate-email error and leaves the store unchanged; the
duplicate lookup is case-sensitive (exact match), so a differently-cased
spelling of the same address is not rejected. -/
theorem register_duplicate_exact_email (hashPw : String → String) (db : DB)
    (email password nm newId : String) (now : Int)
    (hdup : ∃ u ∈ db.users, u.email = email) :
    (register hashPw db email password nm newId now).1 = .error .emailAlreadyRegistered ∧
    (register hashPw db email password nm newId now).2 = db := by
  obtain ⟨u, hu, he⟩ := hdup
  have hsome : (db.users.find? (fun v => v.email == email)).isSome :=
    List.find?_isSome.mpr ⟨u, hu, by simp [he]⟩
  cases hfind : db.users.find? (fun v => v.email == email) with
  | none => rw [hfind] at hsome; simp at hsome
  | some w => simp [register, hfind]

/-- Witness for `register_duplicate_exact_email` at concrete inputs. -/
theorem register_duplicate_exact_email_witness :
    (register (fun s => s) oneUserDB "a@x.com" "pw" "B" "u2" 7).1
      = .error .emailAlreadyRegistered ∧
    (register (fun s => s) oneUserDB "a@x.com" "pw" "B" "u2" 7).2 = oneUserDB :=
  register_duplicate_exact_email (fun s => s) oneUserDB "a@x.com" "pw" "B" "u2" 7
    ⟨{ id := "u1", email := "a@x.com", password := "h1", name := "A",
       created_at := 0, posts_generated := 0 }, by decide, rfl⟩

/-- C10: registration applies no validation to the password — with a free
email it succeeds for a password of any length, including the empty string —
whereas `reset_password` rejects new passwords shorter than 6 characters with
the 400 validation error. -/
theorem register_no_password_validation (hashPw : String → String) (db : DB)
    (email password nm newId : String) (now : Int)
    (sha hashPw2 : String → String) (db2 : DB) (token pw2 : String) (now2 : Int)
    (hfree : db.users.find? (fun u => u.email == email) = none)
    (hshort : pw2.length < 6) :
    (register hashPw db email password nm newId now).1
      = .ok { id := newId, email := email, password := hashPw password, name := nm,
              created_at := now, posts_generated := 0 } ∧
    (reset_password sha hashPw2 db2 token pw2 now2).1 = .error .validationFailure := by
  constructor
  · simp only [register, hfree]
  · simp only [reset_password]
    rw [if_pos hshort]

/-- Witness for `register_no_password_validation`: the empty password is
accepted at registration while a 5-character password is rejected at reset. -/
theorem register_no_password_validation_witness :
    (register (fun s => s) DB.empty "a@x.com" "" "A" "u1" 0).1
      = .ok { id := "u1", email := "a@x.com", password := "", name := "A",
              created_at := 0, posts_generated := 0 } ∧
    (reset_password (fun s => s) (fun s => s) DB.empty "t" "12345" 0).1
      = .error .validationFailure :=
  register_no_password_validation (fun s => s) DB.empty "a@x.com" "" "A" "u1" 0
    (fun s => s) (fun s => s) DB.empty "t" "12345" 0 rfl (by decide)

/-! ## C3: forgot-password response uniformity -/

/-- C3 counterexample: in preview/dev mode (the default configuration, since
the fallback FRONTEND_URL contains "preview"), the response for a registered
email carries `devResetUrl` while the response for an unknown email does not,
so the responses are not identical. -/
theorem forgot_password_preview_leaks_existence :
    (forgot_password (fun s => s) oneUserDB RLStore.empty "a@x.com" "9.9.9.9" 0 true
        "https://app.preview" "sek" "r1").1
      ≠ (forgot_password (fun s => s) DB.empty RLStore.empty "a@x.com" "9.9.9.9" 0 true
        "https://app.preview" "sek" "r1").1 := by
  decide

/-- C3 (amended): outside preview/dev mode the forgot-password response is the
constant generic message with no `devResetUrl`, identical whether or not the
email is registered; an unknown email leaves the store unchanged, while a
registered email (when not rate-limited) only creates the reset record
server-side. -/
theorem forgot_password_uniform_response_non_preview :
    (∀ (sha : String → String) (db : DB) (store : RLStore) (email ip : String) (now : Int)
        (url secret newId : String),
      (forgot_password sha db store email ip now false url secret newId).1
        = { message := genericResetMessage, devResetUrl := none }) ∧
    (∀ (sha : String → String) (db : DB) (store : RLStore) (email ip : String) (now : Int)
        (url secret newId : String),
      db.users.find? (fun u => u.email == email) = none →
      (forgot_password sha db store email ip now false url secret newId).2.1 = db) ∧
    (∀ (sha : String → String) (db : DB) (store : RLStore) (email ip : String) (now : Int)
        (url secret newId : String) (user : UserRec),
      (check_rate_limit store ("forgot:" ++ ip ++ ":" ++ email) now).1 = true →
      db.users.find? (fun u => u.email == email) = some user →
      (forgot_password sha db store email ip now false url secret newId).2.1.password_resets
        = db.password_resets.filter (fun r => r.user_id ≠ user.id)
          ++ [{ id := newId, user_id := user.id, token_hash := sha secret,
                expires_at := now + RESET_TOKEN_TTL, used := false, created_at := now }]) := by
  refine ⟨?_, ?_, ?_⟩
  · intro sha db store email ip now url secret newId
    simp only [forgot_password]
    split
    · rfl
    · cases hfind : db.users.find? (fun u => u.email == email) with
      | none => simp
      | some user => simp [hfind]
  · intro sha db store email ip now url secret newId hfind
    simp only [forgot_password]
    split
    · rfl
    · simp [hfind]
  · intro sha db store email ip now url secret newId user hallow hfind
    simp only [forgot_password]
    split
    · next hden => rw [hallow] at hden; cases hden
    · simp [hfind]

/-- Witness for `forgot_password_uniform_response_non_preview` at concrete
inputs. -/
theorem forgot_password_uniform_response_non_preview_witness :
    (forgot_password (fun s => s) oneUserDB RLStore.empty "a@x.com" "1.1.1.1" 0 false
        "https://host" "sek" "r1").1
      = { message := genericResetMessage, devResetUrl := none } ∧
    (forgot_password (fun s => s) DB.empty RLStore.empty "b@x.com" "1.1.1.1" 0 false
        "https://host" "sek" "r1").2.1 = DB.empty ∧
    (forgot_password (fun s => s) oneUserDB RLStore.empty "a@x.com" "1.1.1.1" 0 false
        "https://host" "sek" "r1").2.1.password_resets
      = oneUserDB.password_resets.filter (fun r => r.user_id ≠ "u1")
        ++ [{ id := "r1", user_id := "u1", token_hash := (fun s => s) "sek",
              expires_at := 0 + RESET_TOKEN_TTL, used := false, created_at := 0 }] :=
  ⟨forgot_password_uniform_response_non_preview.1 (fun s => s) oneUserDB RLStore.empty
      "a@x.com" "1.1.1.1" 0 "https://host" "sek" "r1",
   forgot_password_uniform_response_non_preview.2.1 (fun s => s) DB.empty RLStore.empty
      "b@x.com" "1.1.1.1" 0 "https://host" "sek" "r1" rfl,
   forgot_password_uniform_response_non_preview.2.2 (fun s => s) oneUserDB RLStore.empty
      "a@x.com" "1.1.1.1" 0 "https://host" "sek" "r1"
      { id := "u1", email := "a@x.com", password := "h1", name := "A",
        created_at := 0, posts_generated := 0 } rfl rfl⟩

/-! ## C4: verify-reset-token frame -/

/-- C4 counterexample: for a presented secret whose record is found but past
expiry, the check reports the expired message yet the stored record is **not**
marked used — it remains unused in the post-state, contradicting the claimed
lazy marking. -/
theorem verify_reset_token_expired_not_marked :
    (verify_reset_token (fun s => s) expiredTokenDB "tok" 100).1
      = { valid := false, message := some "Reset link has expired" } ∧
    (verify_reset_token (fun s => s) expiredTokenDB "tok" 100).2.password_resets.map
        ResetRec.used = [false] :=
  ⟨rfl, rfl⟩

/-- C4 (amended): `verify_reset_token` reports validity booleans only and
leaves all stored state unchanged in every case — including when the record it
finds is past expiry, which is reported invalid but not marked used. -/
theorem verify_reset_token_pure (sha : String → String) (db : DB) (token : String) (now : Int) :
    (verify_reset_token sha db token now).2 = db ∧
    ((verify_reset_token sha db token now).1.valid = true ↔
      ∃ r, find_reset db (sha token) = some r ∧ ¬ r.expires_at < now) := by
  constructor
  · simp only [verify_reset_token]
    split
    · rfl
    · split <;> rfl
  · simp only [verify_reset_token]
    cases hfr : find_reset db (sha token) with
    | none => simp
    | some r =>
      by_cases hexp : r.expires_at < now
      · simp [hexp]
      · simp [hexp]
        omega

/-! ## C1: single consumption of a reset secret -/

theorem filter_length_le_cons (p : ResetRec → Bool) (a : ResetRec) (l : List ResetRec) :
    (l.filter p).length ≤ ((a :: l).filter p).length := by
  rw [List.filter_cons]
  split
  · simp
  · exact Nat.le_refl _

/-- After `markUsed` flips the record found by the unused-token lookup, no
unused record with that hash remains (given unique record ids and at most one
record carrying the hash). -/
theorem find_reset_none_after_markUsed (l : List ResetRec) (h : String) (r : ResetRec)
    (hfind : l.find? (fun x => x.token_hash == h && x.used == false) = some r)
    (hids : (l.map ResetRec.id).Nodup)
    (hhash : (l.filter (fun x => x.token_hash == h)).length ≤ 1) :
    (markUsed l r.id).find? (fun x => x.token_hash == h && x.used == false) = none := by
  induction l with
  | nil => simp at hfind
  | cons a l ih =>
    by_cases hpa : (a.token_hash == h && a.used == false) = true
    · simp only [List.find?_cons, hpa] at hfind
      have har : a = r := by injection hfind
      subst har
      have hmark : markUsed (a :: l) a.id = { a with used := true } :: l := by
        simp [markUsed]
      rw [hmark]
      have hahash : (a.token_hash == h) = true := by
        simp only [Bool.and_eq_true] at hpa
        exact hpa.1
      simp only [List.filter_cons, hahash, if_true, List.length_cons] at hhash
      have hnil : l.filter (fun x => x.token_hash == h) = [] :=
        List.length_eq_zero.mp (by omega)
      refine List.find?_eq_none.mpr ?_
      intro x hx hcon
      simp only [Bool.and_eq_true] at hcon
      rcases List.mem_cons.mp hx with hxa | hxl
      · subst hxa
        simp at hcon
      · have hmem : x ∈ l.filter (fun y => y.token_hash == h) :=
          List.mem_filter.mpr ⟨hxl, hcon.1⟩
        rw [hnil] at hmem
        cases hmem
    · have hpa2 : (a.token_hash == h && a.used == false) = false := by
        simpa using hpa
      simp only [List.find?_cons, hpa2] at hfind
      have hrmem : r ∈ l := List.mem_of_find?_eq_some hfind
      simp only [List.map_cons, List.nodup_cons] at hids
      have haid : ¬ a.id = r.id := by
        intro hcon
        exact hids.1 (hcon ▸ List.mem_map_of_mem ResetRec.id hrmem)
      simp only [markUsed]
      rw [if_neg haid]
      simp only [List.find?_cons, hpa2]
      exact ih hfind hids.2 (le_trans (filter_length_le_cons _ a l) hhash)

/-- Characterization of a successful `reset_password` call. -/
theorem reset_password_success_shape (sha hashPw : String → String) (db : DB)
    (token newPassword : String) (now : Int)
    (hsucc : (reset_password sha hashPw db token newPassword now).1 = .ok ()) :
    ∃ rdoc user,
      find_reset db (sha token) = some rdoc ∧
      ¬ rdoc.expires_at < now ∧
      db.users.find? (fun u => u.id == rdoc.user_id) = some user ∧
      ¬ newPassword.length < 6 ∧
      reset_password sha hashPw db token newPassword now
        = (.ok (), { users := setPasswordFirst db.users user.id (hashPw newPassword),
                     password_resets := markUsed db.password_resets rdoc.id }) := by
  by_cases hpw : newPassword.length < 6
  · simp only [reset_password, if_pos hpw] at hsucc
    exact absurd hsucc (by simp)
  · cases hfr : find_reset db (sha token) with
    | none =>
      simp only [reset_password, if_neg hpw, hfr] at hsucc
      exact absurd hsucc (by simp)
    | some rdoc =>
      by_cases hexp : rdoc.expires_at < now
      · simp only [reset_password, if_neg hpw, hfr, if_pos hexp] at hsucc
        exact absurd hsucc (by simp)
      · cases huser : db.users.find? (fun u => u.id == rdoc.user_id) with
        | none =>
          simp only [reset_password, if_neg hpw, hfr, if_neg hexp, huser] at hsucc
          exact absurd hsucc (by simp)
        | some user =>
          exact ⟨rdoc, user, rfl, hexp, huser, hpw, by
            simp only [reset_password, if_neg hpw, hfr, if_neg hexp, huser]⟩

theorem reset_password_invalid (sha hashPw : String → String) (db : DB)
    (token newPassword : String) (now : Int)
    (hlen : ¬ newPassword.length < 6)
    (hnone : find_reset db (sha token) = none) :
    (reset_password sha hashPw db token newPassword now).1 = .error .invalidOrExpired := by
  simp only [reset_password, if_neg hlen, hnone]

/-- C1: a successful consume marks the looked-up record used (and replaces the
user's stored hash), after which — record ids being unique and that hash
appearing on at most one record — every further consume presenting the same
secret fails with the invalid-or-expired error, because the lookup filters on
unused records. -/
theorem reset_secret_single_consumption (sha hashPw hashPw2 : String → String) (db : DB)
    (token newPassword newPassword2 : String) (now now2 : Int)
    (hids : (db.password_resets.map ResetRec.id).Nodup)
    (hhash : (db.password_resets.filter (fun r => r.token_hash == sha token)).length ≤ 1)
    (hlen2 : ¬ newPassword2.length < 6)
    (hsucc : (reset_password sha hashPw db token newPassword now).1 = .ok ()) :
    (∃ rdoc user,
      find_reset db (sha token) = some rdoc ∧
      db.users.find? (fun u => u.id == rdoc.user_id) = some user ∧
      (reset_password sha hashPw db token newPassword now).2.users
        = setPasswordFirst db.users user.id (hashPw newPassword)) ∧
    (∀ x ∈ (reset_password sha hashPw db token newPassword now).2.password_resets,
      x.token_hash = sha token → x.used = true) ∧
    (reset_password sha hashPw2 (reset_password sha hashPw db token newPassword now).2
        token newPassword2 now2).1 = .error .invalidOrExpired := by
  obtain ⟨rdoc, user, hfr, hexp, huser, hpw, heq⟩ :=
    reset_password_success_shape sha hashPw db token newPassword now hsucc
  have hnone : (markUsed db.password_resets rdoc.id).find?
      (fun x => x.token_hash == sha token && x.used == false) = none :=
    find_reset_none_after_markUsed db.password_resets (sha token) rdoc hfr hids hhash
  have husers : (reset_password sha hashPw db token newPassword now).2.users
      = setPasswordFirst db.users user.id (hashPw newPassword) := by rw [heq]
  refine ⟨?_, ?_, ?_⟩
  · exact ⟨rdoc, user, hfr, huser, husers⟩
  · intro x hx hxh
    rw [heq] at hx
    have hnm := List.find?_eq_none.mp hnone x hx
    simp only [Bool.and_eq_true, beq_iff_eq, not_and] at hnm
    have hne := hnm hxh
    cases hxu : x.used with
    | true => rfl
    | false => exact absurd (by simp [hxu]) hne
  · have h2 := reset_password_invalid sha hashPw2
      { users := setPasswordFirst db.users user.id (hashPw newPassword),
        password_resets := markUsed db.password_resets rdoc.id }
      token newPassword2 now2 hlen2 hnone
    rw [heq]
    exact h2

/-- Witness for `reset_secret_single_consumption` at concrete inputs. -/
theorem reset_secret_single_consumption_witness :
    (∃ rdoc user,
      find_reset
        { users := [{ id := "u1", email := "a@x.com", password := "h1", name := "A",
                      created_at := 0, posts_generated := 0 }],
          password_resets := [{ id := "r1", user_id := "u1", token_hash := "tok",
                                expires_at := 1000, used := false, created_at := 0 }] }
        ((fun s => s) "tok") = some rdoc ∧
      ({ users := [{ id := "u1", email := "a@x.com", password := "h1", name := "A",
                     created_at := 0, posts_generated := 0 }],
         password_resets := [{ id := "r1", user_id := "u1", token_hash := "tok",
                               expires_at := 1000, used := false, created_at := 0 }] } : DB).users.find?
          (fun u => u.id == rdoc.user_id) = some user ∧
      (reset_password (fun s => s) (fun _ => "NEWHASH")
        { users := [{ id := "u1", email := "a@x.com", password := "h1", name := "A",
                      created_at := 0, posts_generated := 0 }],
          password_resets := [{ id := "r1", user_id := "u1", token_hash := "tok",
                                expires_at := 1000, used := false, created_at := 0 }] }
        "tok" "abcdef" 5).2.users
        = setPasswordFirst
            [{ id := "u1", email := "a@x.com", password := "h1", name := "A",
               created_at := 0, posts_generated := 0 }] user.id ((fun _ => "NEWHASH") "abcdef")) ∧
    (∀ x ∈ (reset_password (fun s => s) (fun _ => "NEWHASH")
        { users := [{ id := "u1", email := "a@x.com", password := "h1", name := "A",
                      created_at := 0, posts_generated := 0 }],
          password_resets := [{ id := "r1", user_id := "u1", token_hash := "tok",
                                expires_at := 1000, used := false, created_at := 0 }] }
        "tok" "abcdef" 5).2.password_resets,
      x.token_hash = (fun s => s) "tok" → x.used = true) ∧
    (reset_password (fun s => s) (fun _ => "NEWHASH2")
        (reset_password (fun s => s) (fun _ => "NEWHASH")
          { users := [{ id := "u1", email := "a@x.com", password := "h1", name := "A",
                        created_at := 0, posts_generated := 0 }],
            password_resets := [{ id := "r1", user_id := "u1", token_hash := "tok",
                                  expires_at := 1000, used := false, created_at := 0 }] }
          "tok" "abcdef" 5).2
        "tok" "ghijkl" 9).1 = .error .invalidOrExpired :=
  reset_secret_single_consumption (fun s => s) (fun _ => "NEWHASH") (fun _ => "NEWHASH2")
    { users := [{ id := "u1", email := "a@x.com", password := "h1", name := "A",
                  created_at := 0, posts_generated := 0 }],
      password_resets := [{ id := "r1", user_id := "u1", token_hash := "tok",
                            expires_at := 1000, used := false, created_at := 0 }] }
    "tok" "abcdef" "ghijkl" 5 9 (by decide) (by decide) (by decide) rfl

/-! ## C6: at most one active reset record per user -/

theorem unusedCount_cons (r : ResetRec) (l : List ResetRec) (uid : String) :
    unusedCount (r :: l) uid
      = (if (r.user_id == uid && r.used == false) = true then 1 else 0)
        + unusedCount l uid := by
  simp only [unusedCount, List.filter_cons]
  split
  · rw [List.length_cons]; omega
  · omega

theorem unusedCount_markUsed_le (l : List ResetRec) (rid uid : String) :
    unusedCount (markUsed l rid) uid ≤ unusedCount l uid := by
  induction l with
  | nil => exact Nat.le_refl 0
  | cons r rs ih =>
    simp only [markUsed]
    split
    · rw [unusedCount_cons, unusedCount_cons, if_neg (by simp)]
      split <;> omega
    · rw [unusedCount_cons, unusedCount_cons]
      exact Nat.add_le_add_left ih _
  
theorem unusedCount_append (l1 l2 : List ResetRec) (uid : String) :
    unusedCount (l1 ++ l2) uid = unusedCount l1 uid + unusedCount l2 uid := by
  simp [unusedCount, List.filter_append]

theorem unusedCount_filter_le (p : ResetRec → Bool) (l : List ResetRec) (uid : String) :
    unusedCount (l.filter p) uid ≤ unusedCount l uid := by
  induction l with
  | nil => exact Nat.le_refl 0
  | cons r rs ih =>
    rw [List.filter_cons]
    split
    · rw [unusedCount_cons, unusedCount_cons]
      exact Nat.add_le_add_left ih _
    · rw [unusedCount_cons]
      exact le_trans ih (Nat.le_add_left _ _)

theorem unusedCount_filter_ne (l : List ResetRec) (uid : String) :
    unusedCount (l.filter (fun r => r.user_id ≠ uid)) uid = 0 := by
  refine List.length_eq_zero.mpr (List.filter_eq_nil_iff.mpr ?_)
  intro x hx hcon
  have hq := (List.mem_filter.mp hx).2
  simp only [decide_eq_true_eq] at hq
  simp only [Bool.and_eq_true, beq_iff_eq] at hcon
  exact hq hcon.1

theorem unusedCount_singleton_le (r : ResetRec) (uid : String) :
    unusedCount [r] uid ≤ 1 := List.length_filter_le _ _

theorem unusedCount_singleton_ne (r : ResetRec) (uid : String) (h : ¬ r.user_id = uid) :
    unusedCount [r] uid = 0 := by
  rw [unusedCount_cons, if_neg (by simp [h])]
  rfl

theorem register_resets_eq (hashPw : String → String) (db : DB)
    (email password nm newId : String) (now : Int) :
    (register hashPw db email password nm newId now).2.password_resets
      = db.password_resets := by
  cases hfind : db.users.find? (fun u => u.email == email) <;> simp [register, hfind]

theorem verify_db_eq (sha : String → String) (db : DB) (token : String) (now : Int) :
    (verify_reset_token sha db token now).2 = db := by
  simp only [verify_reset_token]
  split
  · rfl
  · split <;> rfl

theorem forgot_resets_cases (sha : String → String) (db : DB) (store : RLStore)
    (email ip : String) (now : Int) (preview : Bool) (url secret newId : String) :
    (forgot_password sha db store email ip now preview url secret newId).2.1.password_resets
      = db.password_resets
    ∨ ∃ user : UserRec,
      (forgot_password sha db store email ip now preview url secret newId).2.1.password_resets
        = db.password_resets.filter (fun r => r.user_id ≠ user.id)
          ++ [{ id := newId, user_id := user.id, token_hash := sha secret,
                expires_at := now + RESET_TOKEN_TTL, used := false, created_at := now }] := by
  simp only [forgot_password]
  split
  · exact Or.inl rfl
  · split
    · exact Or.inl rfl
    · rename_i user heq
      exact Or.inr ⟨user, by split <;> rfl⟩

theorem reset_resets_cases (sha hashPw : String → String) (db : DB)
    (token newPassword : String) (now : Int) :
    (reset_password sha hashPw db token newPassword now).2.password_resets
      = db.password_resets
    ∨ ∃ rid, (reset_password sha hashPw db token newPassword now).2.password_resets
        = markUsed db.password_resets rid := by
  by_cases hpw : newPassword.length < 6
  · left; simp [reset_password, if_pos hpw]
  · cases hfr : find_reset db (sha token) with
    | none => left; simp [reset_password, if_neg hpw, hfr]
    | some rdoc =>
      by_cases hexp : rdoc.expires_at < now
      · right; exact ⟨rdoc.id, by simp [reset_password, if_neg hpw, hfr, if_pos hexp]⟩
      · cases huser : db.users.find? (fun u => u.id == rdoc.user_id) with
        | none => left; simp [reset_password, if_neg hpw, hfr, if_neg hexp, huser]
        | some user =>
          right
          exact ⟨rdoc.id, by simp [reset_password, if_neg hpw, hfr, if_neg hexp, huser]⟩

theorem stepOp_preserves_resetInvariant (s : Sys) (op : Op)
    (h : resetInvariant s.db) : resetInvariant (stepOp s op).db := by
  cases op with
  | opRegister hashPw email password nm newId now =>
    intro uid
    simp only [stepOp]
    rw [register_resets_eq]
    exact h uid
  | opVerify sha token now =>
    intro uid
    simp only [stepOp]
    rw [verify_db_eq]
    exact h uid
  | opReset sha hashPw token newPassword now =>
    intro uid
    simp only [stepOp]
    rcases reset_resets_cases sha hashPw s.db token newPassword now with hc | ⟨rid, hc⟩
    · rw [hc]; exact h uid
    · rw [hc]; exact le_trans (unusedCount_markUsed_le _ _ _) (h uid)
  | opForgot sha email ip now preview url secret newId =>
    intro uid
    simp only [stepOp]
    rcases forgot_resets_cases sha s.db s.store email ip now preview url secret newId with
      hc | ⟨user, hc⟩
    · rw [hc]; exact h uid
    · rw [hc, unusedCount_append]
      by_cases huid : user.id = uid
      · subst huid
        rw [unusedCount_filter_ne, Nat.zero_add]
        exact unusedCount_singleton_le _ _
      · rw [unusedCount_singleton_ne _ _ huid, Nat.add_zero]
        exact le_trans (unusedCount_filter_le _ _ _) (h uid)

theorem foldl_stepOp_invariant (ops : List Op) (s : Sys) (h : resetInvariant s.db) :
    resetInvariant (ops.foldl stepOp s).db := by
  induction ops generalizing s with
  | nil => exact h
  | cons op ops ih => exact ih _ (stepOp_preserves_resetInvariant s op h)

theorem activeCount_cons (r : ResetRec) (l : List ResetRec) (uid : String) (now : Int) :
    activeCount (r :: l) uid now
      = (if (r.user_id == uid && r.used == false && decide (now ≤ r.expires_at)) = true
         then 1 else 0) + activeCount l uid now := by
  simp only [activeCount, List.filter_cons]
  split
  · rw [List.length_cons]; omega
  · omega

theorem activeCount_le_unusedCount (l : List ResetRec) (uid : String) (now : Int) :
    activeCount l uid now ≤ unusedCount l uid := by
  induction l with
  | nil => exact Nat.le_refl 0
  | cons r rs ih =>
    rw [activeCount_cons, unusedCount_cons]
    by_cases hx : (r.user_id == uid && r.used == false && decide (now ≤ r.expires_at)) = true
    · have hb : (r.user_id == uid && r.used == false) = true := by
        simp only [Bool.and_eq_true] at hx ⊢
        exact hx.1
      rw [if_pos hx, if_pos hb]
      omega
    · rw [if_neg hx]
      split <;> omega

/-- C6: every operation on the users / password-resets collections preserves
the at-most-one-unused-reset-record-per-user invariant, and hence in every
reachable state each user has at most one active (unused and unexpired) reset
record — requesting a new reset deletes all of that user's prior records
before inserting the new one, and consumption or discovered expiry only marks
records used. -/
theorem at_most_one_active_reset_invariant :
    (∀ (s : Sys) (op : Op), resetInvariant s.db → resetInvariant (stepOp s op).db) ∧
    (∀ (ops : List Op) (uid : String) (now : Int),
      activeCount (runOps ops).db.password_resets uid now ≤ 1) := by
  refine ⟨stepOp_preserves_resetInvariant, ?_⟩
  intro ops uid now
  have hinv : resetInvariant (runOps ops).db :=
    foldl_stepOp_invariant ops Sys.init (fun _ => Nat.zero_le 1)
  exact le_trans (activeCount_le_unusedCount _ _ _) (hinv uid)

/-- Witness for `at_most_one_active_reset_invariant` at concrete inputs. -/
theorem at_most_one_active_reset_invariant_witness :
    resetInvariant (stepOp Sys.init (.opVerify (fun s => s) "t" 0)).db ∧
    activeCount (runOps []).db.password_resets "u" 0 ≤ 1 :=
  ⟨at_most_one_active_reset_invariant.1 Sys.init (.opVerify (fun s => s) "t" 0)
      (fun _ => Nat.zero_le 1),
   at_most_one_active_reset_invariant.2 [] "u" 0⟩
